import Mathlib

/-!
Verification development for the Dell OS10 NAPALM driver
(`napalm_dellos10/dellos10.py`).  The Python driver is shallowly embedded:
device I/O is modelled by passing the device's reply strings as explicit
oracle arguments, Python exceptions by an explicit result type, and the
driver's pure string/XML manipulation by executable Lean functions that
mirror the Python source line by line.
-/

namespace DellOS10

/-! ## Python string primitives

The driver relies on Python's `in` substring test, `str.split(sep)` and
`str.splitlines(keepends=True)`.  These are embedded over `List Char`
(`String.data`).  `pySplitlines` covers the line boundaries `\n`, `\r\n`
and `\r` (the device output is ASCII text using `\n`).  The two split
functions recurse on an explicit fuel equal to the input length, which
bounds the number of steps (each step consumes at least one character),
so that they stay kernel-computable.
-/

/-- `isPrefixOfB n h` : `n` is a prefix of `h` (boolean). -/
def isPrefixOfB : List Char → List Char → Bool
  | [], _ => true
  | _ :: _, [] => false
  | a :: as, b :: bs => a == b && isPrefixOfB as bs

/-- `containsB n h` : `n` occurs as a contiguous substring of `h`
(Python's `n in h`). -/
def containsB (needle : List Char) : List Char → Bool
  | [] => isPrefixOfB needle []
  | c :: t => isPrefixOfB needle (c :: t) || containsB needle t

/-- Python's `needle in hay` on strings. -/
def pyIn (needle hay : String) : Bool :=
  containsB needle.data hay.data

/-- Core of Python's `str.split(sep)` for non-empty `sep`:
accumulates the current fragment (reversed) and emits it at every
occurrence of `sep`.  The fuel argument dominates the input length. -/
def splitFuel (sep : List Char) : Nat → List Char → List Char → List (List Char)
  | 0, l, acc => [acc.reverse ++ l]
  | _ + 1, [], acc => [acc.reverse]
  | fuel + 1, c :: rest, acc =>
    if isPrefixOfB sep (c :: rest) then
      acc.reverse :: splitFuel sep fuel (List.drop (sep.length - 1) rest) []
    else
      splitFuel sep fuel rest (c :: acc)

/-- Python `s.split(sep)` (non-empty separator), over char lists. -/
def pySplitChars (sep l : List Char) : List (List Char) :=
  splitFuel sep l.length l []

/-- Python `s.splitlines(True)`: split after every line boundary,
keeping the boundary characters; no trailing empty fragment. -/
def splitlinesFuel : Nat → List Char → List Char → List (List Char)
  | 0, l, acc => if (acc.reverse ++ l).isEmpty then [] else [acc.reverse ++ l]
  | _ + 1, [], acc => if acc.isEmpty then [] else [acc.reverse]
  | fuel + 1, '\r' :: '\n' :: rest, acc =>
      (acc.reverse ++ ['\r', '\n']) :: splitlinesFuel fuel rest []
  | fuel + 1, '\r' :: rest, acc =>
      (acc.reverse ++ ['\r']) :: splitlinesFuel fuel rest []
  | fuel + 1, '\n' :: rest, acc =>
      (acc.reverse ++ ['\n']) :: splitlinesFuel fuel rest []
  | fuel + 1, c :: rest, acc => splitlinesFuel fuel rest (c :: acc)

/-- Python `s.splitlines(True)`, over char lists. -/
def pySplitlines (l : List Char) : List (List Char) :=
  splitlinesFuel l.length l []

example : pySplitChars "b".data "bb".data = ["".data, "".data, "".data] := by decide
example : pySplitChars ", ".data "a, b".data = ["a".data, "b".data] := by decide
example : pySplitlines "?><a/>".data = ["?><a/>".data] := by decide
example : pySplitlines "?>\n<a/>\n".data = ["?>\n".data, "<a/>\n".data] := by decide

/-! ### Lemmas about substring containment -/

theorem isPrefixOfB_refl (l : List Char) : isPrefixOfB l l = true := by
  induction l with
  | nil => rfl
  | cons a as ih => simp [isPrefixOfB, ih]

theorem isPrefixOfB_append (n h y : List Char) (hp : isPrefixOfB n h = true) :
    isPrefixOfB n (h ++ y) = true := by
  induction n generalizing h with
  | nil => rfl
  | cons a as ih =>
    cases h with
    | nil => simp [isPrefixOfB] at hp
    | cons b bs =>
      simp only [isPrefixOfB, Bool.and_eq_true] at hp
      simp only [List.cons_append, isPrefixOfB, Bool.and_eq_true]
      exact ⟨hp.1, ih bs hp.2⟩

theorem containsB_self (n : List Char) : containsB n n = true := by
  cases n with
  | nil => rfl
  | cons c t => simp [containsB, isPrefixOfB_refl]

theorem containsB_nil_left (y : List Char) : containsB [] y = true := by
  cases y <;> simp [containsB, isPrefixOfB]

theorem containsB_append_right (n h y : List Char) (hc : containsB n h = true) :
    containsB n (h ++ y) = true := by
  induction h with
  | nil =>
    cases n with
    | nil => simpa using containsB_nil_left y
    | cons a as => simp [containsB, isPrefixOfB] at hc
  | cons c t ih =>
    simp only [containsB, Bool.or_eq_true] at hc
    rcases hc with hp | hr
    · simp only [List.cons_append, containsB, Bool.or_eq_true]
      exact Or.inl (isPrefixOfB_append _ _ _ hp)
    · simp only [List.cons_append, containsB, Bool.or_eq_true]
      exact Or.inr (ih hr)

theorem containsB_append_left (n x h : List Char) (hc : containsB n h = true) :
    containsB n (x ++ h) = true := by
  induction x with
  | nil => simpa using hc
  | cons c t ih =>
    simp only [List.cons_append, containsB, Bool.or_eq_true]
    exact Or.inr ih

/-- Python `x in (a ++ x)` is always true. -/
theorem pyIn_append_self (a x : String) : pyIn x (a ++ x) = true := by
  have hdata : (a ++ x).data = a.data ++ x.data := rfl
  unfold pyIn
  rw [hdata]
  exact containsB_append_left _ _ _ (containsB_self _)

/-- Monotonicity of `pyIn` under appending on the right. -/
theorem pyIn_append_right (n h y : String) (hc : pyIn n h = true) :
    pyIn n (h ++ y) = true := by
  have hdata : (h ++ y).data = h.data ++ y.data := rfl
  unfold pyIn at hc ⊢
  rw [hdata]
  exact containsB_append_right _ _ _ hc

/-- Monotonicity of `pyIn` under appending on the left. -/
theorem pyIn_append_left (n x h : String) (hc : pyIn n h = true) :
    pyIn n (x ++ h) = true := by
  have hdata : (x ++ h).data = x.data ++ h.data := rfl
  unfold pyIn at hc ⊢
  rw [hdata]
  exact containsB_append_left _ _ _ hc

/-- A non-empty string is never contained in the empty string, so a reply
that contains a non-empty marker is in particular non-empty. -/
theorem ne_empty_of_pyIn (n h : String) (hn : n ≠ "")
    (hc : pyIn n h = true) : h ≠ "" := by
  intro he
  subst he
  cases hm : n.data with
  | nil =>
    exact hn (String.ext (hm.trans rfl))
  | cons c t =>
    unfold pyIn at hc
    rw [hm] at hc
    simp [containsB, isPrefixOfB] at hc

/-! ## Python exceptions

A Python call either returns a value or raises; `PyResult` makes the two
outcomes explicit.  `exn` carries the exception message. -/

inductive PyResult (α : Type) where
  | ok (a : α)
  | exn (msg : String)
deriving DecidableEq, Repr

instance : Monad PyResult where
  pure := PyResult.ok
  bind m f :=
    match m with
    | .ok a => f a
    | .exn e => .exn e

/-- `true` when the call returned normally (did not raise). -/
def PyResult.isOk {α : Type} : PyResult α → Bool
  | .ok _ => true
  | .exn _ => false

/-! ## XML documents and the XPath fact extractor

`convert_xml_data` parses a reply into an element tree; the extractor
helpers walk it with simple slash-separated paths.  An element is a tag,
an optional text (Python's `elem.text`, which is `None` for an empty
element), and a list of children.  A path is given as its list of
slash-separated segments. -/

inductive XmlNode where
  | node (tag : String) (text : Option String) (children : List XmlNode)

def XmlNode.tag : XmlNode → String
  | .node t _ _ => t

def XmlNode.text : XmlNode → Option String
  | .node _ x _ => x

def XmlNode.children : XmlNode → List XmlNode
  | .node _ _ c => c

/-- `ElementTree.find` for a simple relative path: at each segment pick
the children with that tag and return the first complete match in
document order. -/
def findPathAux : List String → XmlNode → Option XmlNode
  | [], n => some n
  | t :: rest, n =>
    (((XmlNode.children n).filter (fun c => XmlNode.tag c == t)).filterMap
      (fun c => findPathAux rest c)).head?

/-- `interface.find(item)` with `item` given as its path segments. -/
def findPath (n : XmlNode) (path : List String) : Option XmlNode :=
  findPathAux path n

/-- Python `str(x)` for `x` a string-or-None: `str(None)` is the
four-character string `"None"`. -/
def pyStrOfOpt : Option String → String
  | none => "None"
  | some s => s

/-- `DellOS10Driver.parse_item`: `ret = u""`, replaced by `elem.text`
when the node is found, then `str(ret)`. -/
def parse_item (interface : XmlNode) (item : List String) : String :=
  match findPath interface item with
  | none => ""
  | some elem => pyStrOfOpt (XmlNode.text elem)

/-- `DellOS10Driver.parse_xml_data`: like `parse_item` but tolerating a
`None` document. -/
def parse_xml_data (xml_data : Option XmlNode) (xpath : List String) : String :=
  match xml_data with
  | none => ""
  | some d =>
    match findPath d xpath with
    | none => ""
    | some v => pyStrOfOpt (XmlNode.text v)

/-! ## Sentinel constants and conversion utilities

The class-level constants of `DellOS10Driver` (dellos10.py lines 44-47)
and the safe-coercion helpers `convert_int` / `convert_boolean`
(lines 1739-1761).  Note that the source initializes `UNKNOWN_BOOL` with
`bool("False")`, Python truthiness of a non-empty string. -/

/-- Python `bool(s)` for a string: `True` exactly when `s` is non-empty. -/
def pyBoolOfString (s : String) : Bool := !(s == "")

def UNKNOWN : String := "N/A"

def UNKNOWN_INT : Int := -1

def UNKNOWN_FLOAT : Rat := -1

/-- `UNKNOWN_BOOL = bool("False")` from the source. -/
def UNKNOWN_BOOL : Bool := pyBoolOfString "False"

/-- Python whitespace accepted by `int()` / `float()` around a numeral. -/
def isSpaceB (c : Char) : Bool :=
  c == ' ' || c == '\t' || c == '\n' || c == '\r'

def stripWs (l : List Char) : List Char :=
  ((l.dropWhile isSpaceB).reverse.dropWhile isSpaceB).reverse

def digitsNat (l : List Char) : Nat :=
  l.foldl (fun a c => a * 10 + (c.toNat - '0'.toNat)) 0

/-- Python `int(s)` on a decimal numeral: optional surrounding
whitespace, optional sign, then a non-empty digit string; `none` models
`ValueError` for every other form. -/
def pyIntChars? (l : List Char) : Option Int :=
  match stripWs l with
  | '-' :: ds =>
    if !ds.isEmpty && ds.all Char.isDigit then some (-(digitsNat ds : Int)) else none
  | '+' :: ds =>
    if !ds.isEmpty && ds.all Char.isDigit then some (digitsNat ds : Int) else none
  | ds =>
    if !ds.isEmpty && ds.all Char.isDigit then some (digitsNat ds : Int) else none

def pyInt? (s : String) : Option Int := pyIntChars? s.data

/-- Python `float(s)` on the plain decimal forms the device emits:
optional sign, digits with an optional fractional part; `none` models
`ValueError`. -/
def pyFloatBody? (ds : List Char) : Option Rat :=
  let ip := ds.takeWhile Char.isDigit
  let rest := ds.dropWhile Char.isDigit
  match rest with
  | [] => if ip.isEmpty then none else some (digitsNat ip : Rat)
  | '.' :: fp =>
    if fp.all Char.isDigit && !(ip.isEmpty && fp.isEmpty) then
      some ((digitsNat (ip ++ fp) : Rat) / (10 : Rat) ^ fp.length)
    else none
  | _ => none

def pyFloat? (s : String) : Option Rat :=
  match stripWs s.data with
  | '-' :: ds => (pyFloatBody? ds).map (fun q => -q)
  | '+' :: ds => pyFloatBody? ds
  | ds => pyFloatBody? ds

/-- `float(s)` as a Python call: raises `ValueError` on a non-numeral. -/
def pyFloatCall (s : String) : PyResult Rat :=
  match pyFloat? s with
  | some q => .ok q
  | none => .exn "ValueError: could not convert string to float"

/-- `DellOS10Driver.convert_int` (dellos10.py lines 1739-1749):
`ret = UNKNOWN_INT; if value: ret = int(value); return ret`.
`none` models a Python `None` argument; `int(value)` raises
`ValueError` on a non-empty non-numeral string. -/
def convert_int (value : Option String) : PyResult Int :=
  match value with
  | none => .ok UNKNOWN_INT
  | some s =>
    if s == "" then .ok UNKNOWN_INT
    else
      match pyInt? s with
      | some n => .ok n
      | none => .exn "ValueError: invalid literal for int with base 10"

/-- `DellOS10Driver.convert_boolean` (dellos10.py lines 1751-1761):
`ret = UNKNOWN_BOOL; if value: ret = bool(value); return ret`,
for the string arguments the driver passes it. -/
def convert_boolean (value : String) : Bool :=
  if value == "" then UNKNOWN_BOOL else pyBoolOfString value

example : convert_int (some "42") = .ok 42 := by decide
example : convert_int (some " -7 ") = .ok (-7) := by decide
example : convert_int (some "abc") = .exn "ValueError: invalid literal for int with base 10" := by decide
example : pyFloat? "abc" = none := by decide
example : pyFloat? "" = none := by decide
example : (pyFloat? "12.5").isSome = true := by decide

/-! ## XML telemetry splitter

`DellOS10Driver._build_xml_list` (dellos10.py lines 1711-1721): split
the raw reply at each `<?xml version="1.0"` marker, drop each
fragment's first line (the remainder of the declaration line), and glue
a fresh declaration header on front. -/

def xml_declaration_tag : String := "<?xml version=\"1.0\"?>\n"

def xml_decl_marker : String := "<?xml version=\"1.0\""

def build_xml_list (xml_output : String) : List String :=
  ((pySplitChars xml_decl_marker.data xml_output.data).filter
      (fun d => !d.isEmpty)).map
    (fun d => String.mk (xml_declaration_tag.data ++ ((pySplitlines d).drop 1).flatten))

/-! ## Fact normalizer: `get_interfaces`

The per-interface body of `get_interfaces` (dellos10.py lines 771-792),
applied to one `<interface>` element of a bulk reply.  It returns the
interface name together with the record stored under that name; the
`float(...)` and `convert_int` coercions can raise, hence `PyResult`. -/

structure IntfRecord where
  last_flapped : Rat
  description : String
  is_enabled : Bool
  mac_address : String
  is_up : Bool
  speed : Int
deriving DecidableEq, Repr

def get_interfaces_record (interface : XmlNode) : PyResult (String × IntfRecord) := do
  let name := parse_item interface ["name"]
  let lfs := parse_item interface ["last-change-time"]
  let last_flapped ← if lfs == "" then pure (-1 : Rat) else pyFloatCall lfs
  let description := parse_item interface ["description"]
  let admin_status := parse_item interface ["admin-status"]
  let is_enabled := admin_status == "up"
  let mac_address := parse_item interface ["phys-address"]
  let oper_status := parse_item interface ["oper-status"]
  let is_up := !(oper_status == "down")
  let speed ← convert_int (some (parse_item interface ["speed"]))
  pure (name, ⟨last_flapped, description, is_enabled, mac_address, is_up, speed⟩)

/-! ## Configuration lifecycle manager -/

/-- The per-instance file-name configuration and candidate mode flag. -/
structure DriverCfg where
  merge_cfg : String
  rollback_cfg : String
  config_replace : Bool
deriving DecidableEq, Repr

/-- The command sent by `_gen_rollback_cfg` (dellos10.py lines 477-481). -/
def gen_rollback_cmd (cfg : DriverCfg) : String :=
  "copy running-config home://" ++ cfg.rollback_cfg

/-- The merge copy command of `commit_config` (line 405). -/
def merge_copy_cmd (cfg : DriverCfg) : String :=
  "copy home://" ++ cfg.merge_cfg ++ " running-configuration"

/-- Modelled from the spec: `rollback()` is inherited from the napalm
base driver and is missing from this repository's sources; per the spec
(`rollback()` "restore[s] from RollbackSnapshot", the lifecycle manager
"issues the rollback copy command", and the glossary calls the rollback
snapshot the copy "used to restore state after a failed merge"), it
issues the copy command restoring the running configuration from the
rollback snapshot file. -/
def rollback_commands (cfg : DriverCfg) : List String :=
  ["copy home://" ++ cfg.rollback_cfg ++ " running-configuration"]

inductive CommitOutcome where
  | success
  | notImplementedError (msg : String)
  | mergeConfigException (msg : String)
deriving DecidableEq, Repr

def merge_err_header : String :=
  "Configuration merge failed; automatic rollback attempted"

/-- `commit_config` (dellos10.py lines 391-415) as a function of the
device's replies: `dirOut` is the reply to `dir home` inside
`_check_file_exists` and `copyOut` the reply to the merge copy command.
Returns the list of commands sent, in order, and the outcome. -/
def commit_config (cfg : DriverCfg) (dirOut copyOut : String) :
    List String × CommitOutcome :=
  if cfg.config_replace then
    ([gen_rollback_cmd cfg], .notImplementedError "Configuration not supported")
  else if pyIn cfg.merge_cfg dirOut = false then
    ([gen_rollback_cmd cfg, "dir home"],
     .mergeConfigException "Merge source config file does not exist")
  else if pyIn "Invalid input detected" copyOut then
    ([gen_rollback_cmd cfg, "dir home", merge_copy_cmd cfg] ++ rollback_commands cfg,
     .mergeConfigException (merge_err_header ++ ":\n" ++ copyOut))
  else
    ([gen_rollback_cmd cfg, "dir home", merge_copy_cmd cfg, "write mem"], .success)

/-- The two return shapes of `_discard_config`: either the raw device
reply (the no-such-file path) or the success dictionary. -/
inductive DiscardResult where
  | raw (s : String)
  | okMsg (msg : String)
deriving DecidableEq, Repr

/-- `_discard_config` (dellos10.py lines 421-431) as a function of the
reply to the delete command (`out1`) and, when a confirmation was
requested, the reply to the confirming `"yes"` (`out2`).  The device
replies are sent with `send_command_timing`, which performs no error
screening, and no branch of the body raises. -/
def discard_config (out1 out2 : String) : PyResult DiscardResult :=
  if pyIn "Proceed to delete" out1 then
    if pyIn "No such file or directory" out2 then .ok (.raw out2)
    else .ok (.okMsg "Configuration discard successful")
  else .ok (.okMsg "Configuration discard successful")

/-- `_load_candidate_wrapper` (dellos10.py lines 193-214) on the inline
`source_config` path (`source_file is None`).  The argument is the
outcome of `self._scp_file(...)`: either a normal `(status, msg)` return
or a raised exception.  The first component of the result records
whether the temporary local file created by `_create_tmp_file` was
removed before control returned to the caller. -/
def load_candidate_wrapper_inline (xfer : PyResult (Bool × String)) :
    Bool × PyResult (Bool × String) :=
  match xfer with
  | .ok (st, m) =>
    let m2 := if !st && m == "" then "Transfer to remote device failed" else m
    (true, .ok (st, m2))
  | .exn e => (false, .exn e)

/-! ## Feature-disabled short-circuits (`get_lldp_neighbors`,
`get_lldp_neighbors_detail`, `get_bgp_neighbors`) -/

def LLDP_NOT_ACTIVE : String := "LLDP not active"

def NO_LLDP_NEIGHBORS : String := "No LLDP neighbors found"

def BGP_NOT_ACTIVE : String := "BGP is not active"

/-- A fact getter's result: either the single-key `{"response": reason}`
object or the normal record-building path. -/
inductive GetResult where
  | response (s : String)
  | records (docs : List String)
deriving DecidableEq, Repr

/-- `_send_command` (dellos10.py lines 142-153): raises
`CommandErrorException` when the reply contains `"% Error"`. -/
def send_command_filter (output : String) : PyResult String :=
  if pyIn "% Error" output then
    .exn "CommandErrorException: Error while executing the command"
  else .ok output

/-- `get_lldp_neighbors` (dellos10.py lines 1505-1541) up to its
per-document record-building loop; `records docs` carries the split
documents handed to that loop. -/
def get_lldp_neighbors (output : String) : PyResult GetResult :=
  match send_command_filter output with
  | .exn e => .exn e
  | .ok out =>
    if out == "" then .ok (.response NO_LLDP_NEIGHBORS)
    else if pyIn LLDP_NOT_ACTIVE out then .ok (.response LLDP_NOT_ACTIVE)
    else .ok (.records (build_xml_list out))

/-- `get_lldp_neighbors_detail` with no `interface` argument
(dellos10.py lines 1543-1559): identical short-circuit structure. -/
def get_lldp_neighbors_detail (output : String) : PyResult GetResult :=
  match send_command_filter output with
  | .exn e => .exn e
  | .ok out =>
    if out == "" then .ok (.response NO_LLDP_NEIGHBORS)
    else if pyIn LLDP_NOT_ACTIVE out then .ok (.response LLDP_NOT_ACTIVE)
    else .ok (.records (build_xml_list out))

/-- `get_bgp_neighbors` (dellos10.py lines 1335-1341) up to its
per-document loop. -/
def get_bgp_neighbors (output : String) : PyResult GetResult :=
  match send_command_filter output with
  | .exn e => .exn e
  | .ok out =>
    if pyIn BGP_NOT_ACTIVE out then .ok (.response BGP_NOT_ACTIVE)
    else .ok (.records (build_xml_list out))

/-! ## `get_route_to`: command construction and protocol filter -/

/-- The show command issued by `get_route_to` (dellos10.py lines
833-852): the device-side filter appended to `show ip route` depends on
the `destination` and `protocol` arguments. -/
def get_route_to_cmd (destination protocol : String) : String :=
  let filters :=
    if !(destination == "") then " " ++ destination
    else if pyIn "static" protocol then " static"
    else if pyIn "bgp" protocol then " bgp"
    else if pyIn "ospf" protocol then " static"
    else if pyIn "isis" protocol then " static"
    else if pyIn "connected" protocol then " connected"
    else ""
  "show ip route" ++ filters ++ " | display-xml"

/-- The post-extraction protocol filter of `get_route_to` (dellos10.py
lines 867-870), applied to the `source-protocol` texts of the extracted
route records: a record is skipped exactly when `protocol` is non-empty
and not a substring of the record's protocol text. -/
def route_post_filter (protocol : String) (route_protocols : List String) :
    List String :=
  route_protocols.filter (fun rp => protocol == "" || pyIn protocol rp)

/-! ## Claim theorems -/

/-- C4: every call to `commit_config` first issues the rollback-snapshot
command `copy running-config home://<rollback_cfg>` before any other
command, in both MERGE and REPLACE mode; and in REPLACE mode the commit
then raises `NotImplementedError` without having issued any further
command (in particular no configuration-mutating command). -/
theorem commit_config_snapshot_first (cfg : DriverCfg) (dirOut copyOut : String) :
    (commit_config cfg dirOut copyOut).1.head? = some (gen_rollback_cmd cfg) ∧
    (cfg.config_replace = true →
      commit_config cfg dirOut copyOut =
        ([gen_rollback_cmd cfg], .notImplementedError "Configuration not supported")) := by
  constructor
  · unfold commit_config
    split
    · rfl
    · split
      · rfl
      · split <;> rfl
  · intro h
    unfold commit_config
    simp [h]

def replaceCfg : DriverCfg := ⟨"merge_config.txt", "rollback_config.txt", true⟩

/-- Witness for C4 at a concrete REPLACE-mode configuration. -/
theorem commit_config_snapshot_first_w :
    (commit_config replaceCfg "dir home reply" "reply").1.head? =
      some (gen_rollback_cmd replaceCfg) ∧
    commit_config replaceCfg "dir home reply" "reply" =
      ([gen_rollback_cmd replaceCfg], .notImplementedError "Configuration not supported") :=
  ⟨(commit_config_snapshot_first replaceCfg "dir home reply" "reply").1,
   (commit_config_snapshot_first replaceCfg "dir home reply" "reply").2 rfl⟩

/-- C1: for a merge-mode commit whose device reply to the copy command
contains "Invalid input detected", `commit_config` issues the rollback
copy command (restoring from the rollback snapshot) before raising
`MergeConfigException`, and the raised error's message contains both the
automatic-rollback notice and the raw device output. -/
theorem commit_config_merge_rollback (cfg : DriverCfg) (dirOut copyOut : String)
    (hmode : cfg.config_replace = false)
    (hfile : pyIn cfg.merge_cfg dirOut = true)
    (hbad : pyIn "Invalid input detected" copyOut = true) :
    (commit_config cfg dirOut copyOut).1 =
      [gen_rollback_cmd cfg, "dir home", merge_copy_cmd cfg] ++ rollback_commands cfg ∧
    (commit_config cfg dirOut copyOut).2 =
      .mergeConfigException (merge_err_header ++ ":\n" ++ copyOut) ∧
    pyIn "automatic rollback attempted" (merge_err_header ++ ":\n" ++ copyOut) = true ∧
    pyIn copyOut (merge_err_header ++ ":\n" ++ copyOut) = true := by
  refine ⟨?_, ?_, ?_, ?_⟩
  · unfold commit_config
    simp [hmode, hfile, hbad]
  · unfold commit_config
    simp [hmode, hfile, hbad]
  · have h0 : pyIn "automatic rollback attempted" merge_err_header = true := by decide
    have h1 := pyIn_append_right _ _ ":\n" h0
    exact pyIn_append_right _ _ copyOut h1
  · exact pyIn_append_self (merge_err_header ++ ":\n") copyOut

def mergeCfg : DriverCfg := ⟨"merge_config.txt", "rollback_config.txt", false⟩

/-- Witness for C1 at a concrete merge-mode commit whose copy reply
reports invalid input. -/
theorem commit_config_merge_rollback_w :
    mergeCfg.config_replace = false ∧
    pyIn mergeCfg.merge_cfg "merge_config.txt startup.xml" = true ∧
    pyIn "Invalid input detected" "% Invalid input detected at marker" = true ∧
    ((commit_config mergeCfg "merge_config.txt startup.xml"
        "% Invalid input detected at marker").1 =
      [gen_rollback_cmd mergeCfg, "dir home", merge_copy_cmd mergeCfg] ++
        rollback_commands mergeCfg ∧
     (commit_config mergeCfg "merge_config.txt startup.xml"
        "% Invalid input detected at marker").2 =
      .mergeConfigException
        (merge_err_header ++ ":\n" ++ "% Invalid input detected at marker") ∧
     pyIn "automatic rollback attempted"
        (merge_err_header ++ ":\n" ++ "% Invalid input detected at marker") = true ∧
     pyIn "% Invalid input detected at marker"
        (merge_err_header ++ ":\n" ++ "% Invalid input detected at marker") = true) :=
  ⟨rfl, by decide, by decide,
   commit_config_merge_rollback mergeCfg "merge_config.txt startup.xml"
     "% Invalid input detected at marker" rfl (by decide) (by decide)⟩

/-- C8: `discard_config` never raises, whatever the device replies:
calling it twice in a row succeeds both times; in particular the second
call, whose replies report that the candidate file no longer exists, is
treated as a no-op returning the device output rather than an error. -/
theorem discard_config_idempotent (out1 out2 out3 out4 : String) :
    (discard_config out1 out2).isOk = true ∧
    (discard_config out3 out4).isOk = true ∧
    discard_config "Proceed to delete [confirm yes/no]" "No such file or directory" =
      .ok (.raw "No such file or directory") := by
  refine ⟨?_, ?_, by decide⟩ <;>
  · unfold discard_config
    split
    · split <;> rfl
    · rfl

/-- C5 counterexample: when the SCP transfer raises an exception, the
temporary local file is not removed before the exception propagates —
`_load_candidate_wrapper` has no try/finally around the transfer. -/
theorem load_candidate_tmp_leak :
    load_candidate_wrapper_inline (.exn "SCPException: transfer aborted") =
      (false, .exn "SCPException: transfer aborted") := rfl

/-- C5 (amended): the temporary file is removed on every normal-return
exit of the transfer (success or reported failure alike), but not on the
exception exit — that path leaks the file. -/
theorem load_candidate_tmp_removed (st : Bool) (m e : String) :
    (load_candidate_wrapper_inline (.ok (st, m))).1 = true ∧
    (load_candidate_wrapper_inline (.exn e)).1 = false :=
  ⟨rfl, rfl⟩

/-- An `<interface>` element carrying only a `<name>` child: every other
field of the record's schema is absent from the device reply. -/
def intfNameOnly : XmlNode :=
  .node "interface" none [.node "name" (some "ethernet1/1/1") []]

/-- C2 (code-bug evidence): the generic unknown-boolean sentinel
`UNKNOWN_BOOL = bool("False")` evaluates to `True`, not `False` (so
`convert_boolean` returns `True` for every input), and in
`get_interfaces` the string fields absent from the device reply are
filled with the ambiguous empty string instead of the `"N/A"` sentinel
`UNKNOWN` — contrary to the function's own docstring example, which
shows `description: u"N/A"`. -/
theorem unknown_sentinel_bug :
    UNKNOWN_BOOL = true ∧
    (∀ s : String, convert_boolean s = true) ∧
    get_interfaces_record intfNameOnly =
      .ok ("ethernet1/1/1", ⟨-1, "", false, "", true, -1⟩) ∧
    ("" : String) ≠ UNKNOWN := by
  refine ⟨rfl, ?_, by decide, by decide⟩
  intro s
  by_cases h : s == "" <;>
    simp [convert_boolean, pyBoolOfString, UNKNOWN_BOOL, h]

/-- The concatenated two-document reply named by the claim, with no
separator at all between the documents. -/
def twoDocsNoSep : String :=
  "<?xml version=\"1.0\"?><a/><?xml version=\"1.0\"?><b/>"

/-- C3 counterexample: on the claim's exact input the splitter drops the
whole declaration line of each fragment — including the `<a/>` and
`<b/>` elements that sit on it — and returns two bare declaration
headers, neither of which contains an element. -/
theorem build_xml_list_cex :
    build_xml_list twoDocsNoSep = [xml_declaration_tag, xml_declaration_tag] ∧
    pyIn "<a/>" xml_declaration_tag = false ∧
    pyIn "<b/>" xml_declaration_tag = false := by decide

/-- The same two documents with each declaration on its own line, as the
device emits them. -/
def twoDocsNewline : String :=
  "<?xml version=\"1.0\"?>\n<a/>\n<?xml version=\"1.0\"?>\n<b/>"

/-- Specification-side checker used to state C3's well-formedness: after
`selfClosedAfter rest seen`, the remainder must be a non-empty
alphanumeric tag name closed by `/>` followed only by whitespace. -/
def selfClosedAfter : List Char → Bool → Bool
  | '/' :: '>' :: rest, true => rest.all (fun c => c == '\n' || c == ' ')
  | c :: rest, _ => c.isAlphanum && selfClosedAfter rest true
  | _, _ => false

/-- Specification-side checker used to state C3: the string is a
well-formed, independently parseable XML document made of the
declaration header line followed by a single self-closed element. -/
def wellFormedSimpleDoc (s : String) : Bool :=
  isPrefixOfB xml_declaration_tag.data s.data &&
  (match s.data.drop xml_declaration_tag.data.length with
   | '<' :: rest => selfClosedAfter rest false
   | _ => false)

/-- C3 (amended): when each declaration stands on its own line — the
shape the device actually emits — the splitter returns exactly two
well-formed, independently parseable documents, one containing `<a/>`
and one containing `<b/>`. -/
theorem build_xml_list_amended :
    build_xml_list twoDocsNewline =
      ["<?xml version=\"1.0\"?>\n<a/>\n", "<?xml version=\"1.0\"?>\n<b/>"] ∧
    wellFormedSimpleDoc "<?xml version=\"1.0\"?>\n<a/>\n" = true ∧
    wellFormedSimpleDoc "<?xml version=\"1.0\"?>\n<b/>" = true ∧
    wellFormedSimpleDoc xml_declaration_tag = false ∧
    pyIn "<a/>" "<?xml version=\"1.0\"?>\n<a/>\n" = true ∧
    pyIn "<b/>" "<?xml version=\"1.0\"?>\n<b/>" = true := by decide

/-- C6 counterexample: `convert_int` is not total — on the non-empty
non-numeral string "abc" it raises `ValueError` instead of returning an
integer. -/
theorem convert_int_not_total :
    convert_int (some "abc") =
      .exn "ValueError: invalid literal for int with base 10" := by decide

/-- C6 (amended): `convert_int` returns the sentinel `-1` on `None` and
on the empty string, and the parsed integer on any non-empty string that
`int()` accepts (in particular `convert_int("42") = 42`); but it is not
total: on a non-empty string `int()` cannot parse it raises
`ValueError`. -/
theorem convert_int_amended :
    convert_int none = .ok UNKNOWN_INT ∧
    convert_int (some "") = .ok UNKNOWN_INT ∧
    convert_int (some "42") = .ok 42 ∧
    (∀ s n, s ≠ "" → pyInt? s = some n → convert_int (some s) = .ok n) ∧
    (∀ s, s ≠ "" → pyInt? s = none →
      convert_int (some s) = .exn "ValueError: invalid literal for int with base 10") := by
  refine ⟨rfl, by decide, by decide, ?_, ?_⟩
  · intro s n hs hp
    have hb : (s == "") = false := by
      rw [beq_eq_false_iff_ne]
      exact hs
    simp [convert_int, hb, hp]
  · intro s hs hp
    have hb : (s == "") = false := by
      rw [beq_eq_false_iff_ne]
      exact hs
    simp [convert_int, hb, hp]

/-- Witness for C6's amended statement at the inputs "7" (parses) and
"x" (raises). -/
theorem convert_int_amended_w :
    (("7" : String) ≠ "" ∧ pyInt? "7" = some 7 ∧ convert_int (some "7") = .ok 7) ∧
    (("x" : String) ≠ "" ∧ pyInt? "x" = none ∧
      convert_int (some "x") = .exn "ValueError: invalid literal for int with base 10") :=
  ⟨⟨by decide, by decide, convert_int_amended.2.2.2.1 "7" 7 (by decide) (by decide)⟩,
   ⟨by decide, by decide, convert_int_amended.2.2.2.2 "x" (by decide) (by decide)⟩⟩

/-- C7 counterexample: the issued show command does vary the device-side
filter with the protocol argument — protocol "bgp" yields a
device-filtered command different from the unfiltered one. -/
theorem get_route_to_cmd_varies :
    get_route_to_cmd "" "bgp" = "show ip route bgp | display-xml" ∧
    get_route_to_cmd "" "" = "show ip route | display-xml" ∧
    get_route_to_cmd "" "bgp" ≠ get_route_to_cmd "" "" := by decide

/-- C7 (amended): the protocol filtering is applied post-extraction by
substring match on each record's normalized protocol field (a record
survives exactly when the protocol argument is empty or occurs in that
field), but the issued show command additionally pre-filters on the
device side: static→" static", bgp→" bgp", ospf→" static",
isis→" static", connected→" connected", anything else → unfiltered. -/
theorem get_route_to_filter_amended :
    (∀ protocol rps rp, rp ∈ route_post_filter protocol rps →
        protocol = "" ∨ pyIn protocol rp = true) ∧
    (∀ protocol rps rp, rp ∈ rps → (protocol = "" ∨ pyIn protocol rp = true) →
        rp ∈ route_post_filter protocol rps) ∧
    get_route_to_cmd "" "static" = "show ip route static | display-xml" ∧
    get_route_to_cmd "" "bgp" = "show ip route bgp | display-xml" ∧
    get_route_to_cmd "" "ospf" = "show ip route static | display-xml" ∧
    get_route_to_cmd "" "isis" = "show ip route static | display-xml" ∧
    get_route_to_cmd "" "connected" = "show ip route connected | display-xml" ∧
    get_route_to_cmd "" "rip" = "show ip route | display-xml" := by
  refine ⟨?_, ?_, by decide, by decide, by decide, by decide, by decide, by decide⟩
  · intro protocol rps rp hmem
    rw [route_post_filter, List.mem_filter] at hmem
    have h2 := hmem.2
    simpa [Bool.or_eq_true, beq_iff_eq] using h2
  · intro protocol rps rp hmem hor
    rw [route_post_filter, List.mem_filter]
    exact ⟨hmem, by simpa [Bool.or_eq_true, beq_iff_eq] using hor⟩

/-- Witness for C7's amended statement on a concrete record list. -/
theorem get_route_to_filter_amended_w :
    ("bgp" ∈ route_post_filter "bgp" ["bgp", "ospf"]) ∧
    ("bgp" = "" ∨ pyIn "bgp" "bgp" = true) :=
  ⟨by decide, get_route_to_filter_amended.1 "bgp" ["bgp", "ospf"] "bgp" (by decide)⟩

/-- C9 counterexample: a reply carrying both the dispatcher's "% Error"
marker and the LLDP-disabled marker makes `_send_command` raise
`CommandErrorException`, so `get_lldp_neighbors` does not return the
single-key response object even though the reply contains
"LLDP not active". -/
theorem lldp_not_active_cex :
    pyIn LLDP_NOT_ACTIVE "% Error: LLDP not active" = true ∧
    get_lldp_neighbors "% Error: LLDP not active" =
      .exn "CommandErrorException: Error while executing the command" := by decide

/-- C9 (amended): for every device reply that contains "LLDP not
active" and does not contain the dispatcher's "% Error" marker,
`get_lldp_neighbors` and `get_lldp_neighbors_detail` return the
single-key object `response ↦ "LLDP not active"` rather than an empty
mapping; likewise `get_bgp_neighbors` returns
`response ↦ "BGP is not active"` for a reply containing that marker and
no "% Error". -/
theorem feature_disabled_response (out : String) :
    (pyIn LLDP_NOT_ACTIVE out = true → pyIn "% Error" out = false →
      get_lldp_neighbors out = .ok (.response LLDP_NOT_ACTIVE) ∧
      get_lldp_neighbors_detail out = .ok (.response LLDP_NOT_ACTIVE)) ∧
    (pyIn BGP_NOT_ACTIVE out = true → pyIn "% Error" out = false →
      get_bgp_neighbors out = .ok (.response BGP_NOT_ACTIVE)) := by
  constructor
  · intro hm he
    have hne : out ≠ "" := ne_empty_of_pyIn LLDP_NOT_ACTIVE out (by decide) hm
    have hb : (out == "") = false := by
      rw [beq_eq_false_iff_ne]
      exact hne
    constructor
    · simp [get_lldp_neighbors, send_command_filter, he, hb, hm]
    · simp [get_lldp_neighbors_detail, send_command_filter, he, hb, hm]
  · intro hm he
    simp [get_bgp_neighbors, send_command_filter, he, hm]

/-- Witness for C9's amended statement at the plain marker replies. -/
theorem feature_disabled_response_w :
    (pyIn LLDP_NOT_ACTIVE "LLDP not active" = true ∧
     pyIn "% Error" "LLDP not active" = false ∧
     get_lldp_neighbors "LLDP not active" = .ok (.response LLDP_NOT_ACTIVE)) ∧
    (pyIn BGP_NOT_ACTIVE "BGP is not active" = true ∧
     pyIn "% Error" "BGP is not active" = false ∧
     get_bgp_neighbors "BGP is not active" = .ok (.response BGP_NOT_ACTIVE)) :=
  ⟨⟨by decide, by decide,
    ((feature_disabled_response "LLDP not active").1 (by decide) (by decide)).1⟩,
   ⟨by decide, by decide,
    (feature_disabled_response "BGP is not active").2 (by decide) (by decide)⟩⟩

/-- C10: a node that is present but carries no text yields the
four-character string "None" from both `parse_item` and
`parse_xml_data`, while an absent node yields the empty string. -/
theorem parse_item_empty_element (root : XmlNode) (path : List String) :
    (∀ el, findPath root path = some el → XmlNode.text el = none →
      parse_item root path = "None" ∧ parse_xml_data (some root) path = "None") ∧
    (findPath root path = none →
      parse_item root path = "" ∧ parse_xml_data (some root) path = "") := by
  constructor
  · intro el hf ht
    constructor
    · simp [parse_item, hf, ht, pyStrOfOpt]
    · simp [parse_xml_data, hf, ht, pyStrOfOpt]
  · intro hf
    constructor
    · simp [parse_item, hf]
    · simp [parse_xml_data, hf]

/-- An `<interface>` element whose `<description>` child is present but
empty, and which has no `<name>` child at all. -/
def emptyDescIntf : XmlNode :=
  .node "interface" none [.node "description" none []]

/-- Witness for C10: the empty `<description>` extracts as "None", the
absent `<name>` as the empty string. -/
theorem parse_item_empty_element_w :
    findPath emptyDescIntf ["description"] = some (.node "description" none []) ∧
    XmlNode.text (.node "description" none []) = none ∧
    parse_item emptyDescIntf ["description"] = "None" ∧
    parse_xml_data (some emptyDescIntf) ["description"] = "None" ∧
    findPath emptyDescIntf ["name"] = none ∧
    parse_item emptyDescIntf ["name"] = "" :=
  ⟨rfl, rfl,
   ((parse_item_empty_element emptyDescIntf ["description"]).1 _ rfl rfl).1,
   ((parse_item_empty_element emptyDescIntf ["description"]).1 _ rfl rfl).2,
   rfl,
   ((parse_item_empty_element emptyDescIntf ["name"]).2 rfl).1⟩

end DellOS10
